import Mathlib

/-!
Verification development for the vip-augmentai utility.

The repository's core consists of two backup-then-mutate operations and
their orchestration:

* `DatabaseModel.remove_augment_entries` (src/src/models/database_model.py):
  backs up a SQLite key/value store and deletes the rows whose `key`
  matches `LIKE '%augment%'`.
* `TelemetryModel.update_telemetry_ids` (src/src/models/telemetry_model.py):
  backs up a JSON preferences file and overwrites the two telemetry
  identifier fields with freshly generated random values.
* `VSCodeService` (src/src/services/vscode_service.py): existence checks
  and aggregation of the two operations.

The embedding below translates those Python functions into pure Lean
functions.  File-system effects are made explicit as state records
(`DbState`, `TelState`); OS-level failures that Python surfaces as
exceptions (a failing `shutil.copy2`, a failing `sqlite3.connect`, an
exception raised while executing SQL, an unreadable or unparsable JSON
file, a failing write) are injected through environment records
(`DbEnv`, `TelEnv`) whose flags say which library call raises.
Randomness (`secrets.token_hex`, `uuid.uuid4`) is made explicit by
passing the random bytes as arguments.
-/

namespace VipAugment

/-! ### Characters and hexadecimal encoding -/

/-- Lowercase hexadecimal digit predicate (`0`–`9`, `a`–`f`, i.e. code
points 48–57 and 97–102): the characters produced by Python's
`bytes.hex()` / `'%032x'` formatting. -/
def isLowerHexDigit (c : Char) : Bool :=
  (48 ≤ c.toNat && c.toNat ≤ 57) || (97 ≤ c.toNat && c.toNat ≤ 102)

/-- Hexadecimal digit predicate as accepted by Python's `int(s, 16)`:
digits plus both lowercase and uppercase `a`–`f` (code points 65–70). -/
def isHexDigitChar (c : Char) : Bool :=
  (48 ≤ c.toNat && c.toNat ≤ 57) || (97 ≤ c.toNat && c.toNat ≤ 102)
    || (65 ≤ c.toNat && c.toNat ≤ 70)

/-- The lowercase hex digit with value `n` (meaningful for `n < 16`). -/
def hexDigit (n : Nat) : Char :=
  if n < 10 then Char.ofNat (48 + n) else Char.ofNat (97 + (n - 10))

/-- The two lowercase hex digits of one byte, high nibble first, as in
Python's `bytes.hex()`. -/
def byteToHex (b : Nat) : List Char :=
  [hexDigit (b / 16), hexDigit (b % 16)]

/-- Python `secrets.token_hex` applied to the given random bytes: each byte
becomes two lowercase hex characters. -/
def token_hex (bs : List Nat) : String :=
  ⟨bs.foldr (fun b acc => byteToHex b ++ acc) []⟩

/-! ### UUID version 4 formatting (`uuid.uuid4`) -/

/-- The bit-fixing step of `uuid.UUID(bytes=..., version=4)`: byte 6
becomes `(b6 & 0x0f) | 0x40` (written `b6 % 16 + 64`, which is equal
because `b6 % 16 < 64`) and byte 8 becomes `(b8 & 0x3f) | 0x80`
(written `b8 % 64 + 128`).  Only 16-byte inputs occur at call sites. -/
def setUuid4Bits (bs : List Nat) : List Nat :=
  match bs with
  | [b0, b1, b2, b3, b4, b5, b6, b7, b8, b9, b10, b11, b12, b13, b14, b15] =>
      [b0, b1, b2, b3, b4, b5, b6 % 16 + 64, b7,
       b8 % 64 + 128, b9, b10, b11, b12, b13, b14, b15]
  | other => other

/-- Insert the four dashes of the canonical 8-4-4-4-12 UUID layout into a
32-character hex string, as `str(uuid.UUID(...))` does. -/
def insertDashes (cs : List Char) : List Char :=
  match cs with
  | c0 :: c1 :: c2 :: c3 :: c4 :: c5 :: c6 :: c7 :: c8 :: c9 :: c10 :: c11 ::
    c12 :: c13 :: c14 :: c15 :: c16 :: c17 :: c18 :: c19 :: c20 :: c21 :: c22 :: c23 ::
    c24 :: c25 :: c26 :: c27 :: c28 :: c29 :: c30 :: c31 :: [] =>
      c0 :: c1 :: c2 :: c3 :: c4 :: c5 :: c6 :: c7 :: '-' :: c8 :: c9 :: c10 :: c11 :: '-' ::
      c12 :: c13 :: c14 :: c15 :: '-' :: c16 :: c17 :: c18 :: c19 :: '-' ::
      c20 :: c21 :: c22 :: c23 :: c24 :: c25 :: c26 :: c27 :: c28 :: c29 :: c30 :: c31 :: []
  | other => other

/-- Model of `str(uuid.uuid4())` with the 16 random bytes made explicit: fix the
version/variant bits, hex-encode, and insert dashes. -/
def uuid4_of_bytes (bs : List Nat) : String :=
  ⟨insertDashes ((setUuid4Bits bs).foldr (fun b acc => byteToHex b ++ acc) [])⟩

/-! ### Telemetry data and its generator -/

/-- Structure `TelemetryData` (telemetry_model.py): the machine / device identifier
pair. -/
structure TelemetryData where
  machine_id : String
  device_id : String
deriving DecidableEq

/-- Function `TelemetryModel.generate_new_telemetry_data`, with the randomness of
`secrets.token_hex(32)` and `uuid.uuid4()` made explicit: `mBytes` are
the 32 machine-id bytes, `uBytes` the 16 UUID bytes. -/
def generate_new_telemetry_data (mBytes uBytes : List Nat) : TelemetryData :=
  { machine_id := token_hex mBytes
    device_id := uuid4_of_bytes uBytes }

/-! ### Syntactic UUID-v4 shape (used to state the spec's properties) -/

/-- Canonical RFC-4122 version-4 UUID string shape: five dash-separated
groups of lowercase hex of sizes 8-4-4-4-12, version nibble `'4'`, and
variant nibble in `8`/`9`/`a`/`b`. -/
def isUuid4Chars (cs : List Char) : Bool :=
  match cs with
  | a0 :: a1 :: a2 :: a3 :: a4 :: a5 :: a6 :: a7 :: '-' :: b0 :: b1 :: b2 :: b3 :: '-' ::
    v :: c1 :: c2 :: c3 :: '-' :: r :: d1 :: d2 :: d3 :: '-' ::
    e0 :: e1 :: e2 :: e3 :: e4 :: e5 :: e6 :: e7 :: e8 :: e9 :: e10 :: e11 :: [] =>
      [a0, a1, a2, a3, a4, a5, a6, a7, b0, b1, b2, b3, c1, c2, c3,
       d1, d2, d3, e0, e1, e2, e3, e4, e5, e6, e7, e8, e9, e10, e11].all
        isLowerHexDigit
      && v == '4'
      && (r == '8' || r == '9' || r == 'a' || r == 'b')
  | _ => false

/-- String form of `isUuid4Chars`. -/
def isUuid4String (s : String) : Bool :=
  isUuid4Chars s.data

/-! ### Python `int(s, 16)` parsing

`TelemetryModel.validate_telemetry_data` calls `int(machine_id, 16)` and
`uuid.UUID(device_id, version=4)`.  Both reduce to CPython's base-16
integer-literal grammar: optional surrounding whitespace, optional sign,
optional `0x`/`0X` prefix (an underscore may directly follow the
prefix), then hex digits with single underscores allowed only between
digits. -/

/-- ASCII whitespace stripped by Python's `int`. -/
def isPyWhitespace (c : Char) : Bool :=
  c == ' ' || c == '\t' || c == '\n' || c == '\r' || c == '\x0b' || c == '\x0c'

/-- Digits-and-single-underscores tail: underscores must be followed by a
digit and may not repeat (a trailing single non-digit, in particular a
trailing underscore, fails via `isHexDigitChar`). -/
def pyHexTail : List Char → Bool
  | [] => true
  | [c] => isHexDigitChar c
  | c :: d :: rest =>
    if c = '_' then isHexDigitChar d && pyHexTail rest
    else isHexDigitChar c && pyHexTail (d :: rest)

/-- Nonempty digit sequence starting with a digit (no leading underscore). -/
def pyHexBody (cs : List Char) : Bool :=
  match cs with
  | [] => false
  | c :: rest => isHexDigitChar c && pyHexTail rest

/-- Strip ASCII whitespace from both ends. -/
def stripPyWhitespace (cs : List Char) : List Char :=
  ((cs.dropWhile isPyWhitespace).reverse.dropWhile isPyWhitespace).reverse

/-- Drop one optional leading sign. -/
def dropSign : List Char → List Char
  | '+' :: rest => rest
  | '-' :: rest => rest
  | cs => cs

/-- Drop an optional `0x`/`0X` prefix; one underscore may directly follow
the prefix. -/
def dropHexPrefix : List Char → List Char
  | '0' :: 'x' :: '_' :: rest => rest
  | '0' :: 'x' :: rest => rest
  | '0' :: 'X' :: '_' :: rest => rest
  | '0' :: 'X' :: rest => rest
  | cs => cs

/-- Whether Python's `int(s, 16)` succeeds on the character list `cs`. -/
def pyIntOk (cs : List Char) : Bool :=
  pyHexBody (dropHexPrefix (dropSign (stripPyWhitespace cs)))

/-- Whether Python's `int(s, 16)` succeeds on the string `s`. -/
def pyIntParses (s : String) : Bool :=
  pyIntOk s.data

/-! ### Python `uuid.UUID(hex)` parsing

CPython's `uuid.UUID(hex=s)` normalizes the string with
`hex.replace('urn:', '').replace('uuid:', '').strip('\x7b\x7d').replace('-', '')`,
requires the result to have exactly 32 characters, and then runs
`int(hex, 16)` on it.  Crucially, the `version=4` argument of the
constructor *sets* the version and variant bits of the resulting UUID —
it never validates them, so no syntactically valid UUID string of any
version is rejected. -/

/-- Single left-to-right pass of `s.replace('urn:', '')`. -/
def dropUrn : List Char → List Char
  | 'u' :: 'r' :: 'n' :: ':' :: rest => dropUrn rest
  | c :: rest => c :: dropUrn rest
  | [] => []

/-- Single left-to-right pass of `s.replace('uuid:', '')`. -/
def dropUuidColon : List Char → List Char
  | 'u' :: 'u' :: 'i' :: 'd' :: ':' :: rest => dropUuidColon rest
  | c :: rest => c :: dropUuidColon rest
  | [] => []

/-- A curly-brace character (the set stripped by `strip` in the UUID
constructor). -/
def isBrace (c : Char) : Bool :=
  c == '\x7b' || c == '\x7d'

/-- Python `s.strip` over the brace characters: remove them from both ends. -/
def stripBraces (cs : List Char) : List Char :=
  ((cs.dropWhile isBrace).reverse.dropWhile isBrace).reverse

/-- Python `s.replace('-', '')`. -/
def removeDashes (cs : List Char) : List Char :=
  cs.filter (fun c => !(c == '-'))

/-- The normalization pipeline of the `uuid.UUID` constructor. -/
def uuidNormalize (s : String) : List Char :=
  removeDashes (stripBraces (dropUuidColon (dropUrn s.data)))

/-- Whether `uuid.UUID(s, version=4)` succeeds: normalization leaves
exactly 32 characters and `int(·, 16)` parses them.  The version is
forced, not checked. -/
def pyUuidParses (s : String) : Bool :=
  (uuidNormalize s).length == 32 && pyIntOk (uuidNormalize s)

/-- Function `TelemetryModel.validate_telemetry_data`: machine_id must have length
64 and parse under `int(·, 16)`, and device_id must be accepted by
`uuid.UUID(·, version=4)`.  Any raised `ValueError` yields `false`. -/
def validate_telemetry_data (d : TelemetryData) : Bool :=
  d.machine_id.length == 64
  && pyIntParses d.machine_id
  && pyUuidParses d.device_id

/-! ### SQLite `LIKE '%augment%'` matching

SQLite's `LIKE` is case-insensitive for the ASCII range by default (the
code never sets `PRAGMA case_sensitive_like`), so `key LIKE '%augment%'`
holds iff the ASCII-lowercase folding of `key` contains `augment`.
Lean's `Char.toLower` lowers exactly the ASCII uppercase letters, which
matches SQLite's folding. -/

/-- Case-sensitive containment of `pat` as a contiguous substring. -/
def isInfixOfCS (pat : List Char) : List Char → Bool
  | [] => pat.isEmpty
  | c :: cs => pat.isPrefixOf (c :: cs) || isInfixOfCS pat cs

/-- The row filter `key LIKE '%augment%'` of the SQLite store. -/
def likeAugment (key : String) : Bool :=
  isInfixOfCS "augment".data (key.data.map Char.toLower)

/-! ### The SQLite row store (`DatabaseModel`, database_model.py) -/

/-- Structure `DatabaseEntry`: one row of `ItemTable`. -/
structure DatabaseEntry where
  key : String
  value : String
deriving DecidableEq

/-- Structure `DatabaseOperationResult` (database_model.py), with
`backup_path` as the path string. -/
structure DatabaseOperationResult where
  success : Bool
  message : String
  entries_affected : Nat := 0
  backup_path : Option String := none
  error : Option String := none
deriving DecidableEq

/-- Failure injection for the row-store operation: which library call
raises.  `countFail`, `deleteFail` and `commitFail` model an exception
raised by the corresponding `cursor.execute` / `commit` call inside the
`try` block. -/
structure DbEnv where
  copyFail : Bool
  connectFail : Bool
  countFail : Bool
  deleteFail : Bool
  commitFail : Bool
deriving DecidableEq

/-- File-system state seen by `DatabaseModel`: the store file and its
backup, each `none` when absent.  The store file is abstracted to its
row list. -/
structure DbState where
  dbFile : Option (List DatabaseEntry)
  backupFile : Option (List DatabaseEntry)
deriving DecidableEq

/-- The `SELECT COUNT(*) ... WHERE key LIKE '%augment%'` result. -/
def countAugmentRows (rows : List DatabaseEntry) : Nat :=
  (rows.filter (fun r => likeAugment r.key)).length

/-- The row list after `DELETE FROM ItemTable WHERE key LIKE '%augment%'`. -/
def deleteAugmentRows (rows : List DatabaseEntry) : List DatabaseEntry :=
  rows.filter (fun r => !likeAugment r.key)

/-- Method `DatabaseModel.create_backup`: `None` when the store file is
absent or `shutil.copy2` raises; otherwise copies the file to
`db_path.with_suffix(suffix + ".backup")`, i.e. appends `.backup`. -/
def create_backup (env : DbEnv) (dbPath : String) (s : DbState) :
    Option String × DbState :=
  match s.dbFile with
  | none => (none, s)
  | some rows =>
    if env.copyFail then (none, s)
    else (some (dbPath ++ ".backup"), { s with backupFile := some rows })

/-- Method `DatabaseModel.remove_augment_entries`.  The store file is
rewritten only by the `commit` in the success path; on any exception the
`finally` block closes the connection without committing, which rolls
back uncommitted deletes, so the store file is unchanged. -/
def remove_augment_entries (env : DbEnv) (dbPath : String) (s : DbState) :
    DatabaseOperationResult × DbState :=
  match create_backup env dbPath s with
  | (none, s1) =>
    ({ success := false, message := "Failed to create database backup",
       error := some "Backup creation failed" }, s1)
  | (some backupPath, s1) =>
    if env.connectFail then
      ({ success := false, message := "Failed to connect to database",
         error := some "Database connection failed" }, s1)
    else if env.countFail then
      ({ success := false, message := "Failed to remove Augment entries",
         error := some "database error" }, s1)
    else
      match s1.dbFile with
      | none =>
        -- unreachable: `create_backup` returned a path, so the file exists
        ({ success := false, message := "Failed to remove Augment entries",
           error := some "database error" }, s1)
      | some rows =>
        let countBefore := countAugmentRows rows
        if countBefore = 0 then
          ({ success := true, message := "No Augment-related entries found",
             entries_affected := 0, backup_path := some backupPath }, s1)
        else if env.deleteFail then
          ({ success := false, message := "Failed to remove Augment entries",
             error := some "database error" }, s1)
        else if env.commitFail then
          ({ success := false, message := "Failed to remove Augment entries",
             error := some "database error" }, s1)
        else
          ({ success := true,
             message := "Successfully removed " ++ toString countBefore
               ++ " Augment-related entries",
             entries_affected := countBefore, backup_path := some backupPath },
           { s1 with dbFile := some (deleteAugmentRows rows) })

/-! ### The JSON preference document (`TelemetryModel`, telemetry_model.py) -/

/-- JSON values (numbers abstracted to integers; no claim depends on
numeric semantics). -/
inductive JVal where
  | str : String → JVal
  | num : Int → JVal
  | bool : Bool → JVal
  | null : JVal
  | arr : List JVal → JVal
  | obj : List (String × JVal) → JVal

/-- A parsed JSON object: ordered keyed fields, as Python's `dict`
preserves insertion order. -/
abbrev JObj := List (String × JVal)

/-- Reading a key of the parsed document (`content.get(k)`): first match. -/
def docLookup (m : JObj) (k : String) : Option JVal :=
  (m.find? (fun p => p.1 == k)).map (fun p => p.2)

/-- Python `d[k] = v` on a dict: replace in place when the key is
present, append otherwise. -/
def dictSet (m : JObj) (k : String) (v : JVal) : JObj :=
  if m.any (fun p => p.1 == k) then
    m.map (fun p => if p.1 == k then (k, v) else p)
  else
    m ++ [(k, v)]

/-- The mutation `content.update(new_data.to_dict())`: sets
`telemetry.machineId` then `telemetry.devDeviceId` (insertion order of
`to_dict`). -/
def updateTelemetryFields (m : JObj) (d : TelemetryData) : JObj :=
  dictSet (dictSet m "telemetry.machineId" (JVal.str d.machine_id))
    "telemetry.devDeviceId" (JVal.str d.device_id)

/-- Python truthiness of a JSON value (`if machine_id and device_id`). -/
def jvalTruthy : JVal → Bool
  | .str s => !(s == "")
  | .num n => !(n == 0)
  | .bool b => b
  | .null => false
  | .arr xs => !xs.isEmpty
  | .obj fs => !fs.isEmpty

/-- Failure injection for the preference-document operation. -/
structure TelEnv where
  copyFail : Bool
  readFail : Bool
  writeFail : Bool
deriving DecidableEq

/-- File-system state seen by `TelemetryModel`: the storage.json file
(abstracted to its parsed object, `none` when absent) and its backup. -/
structure TelState where
  storageFile : Option JObj
  backupFile : Option JObj

/-- Structure `TelemetryOperationResult` (telemetry_model.py).
`old_data` holds the raw pair of JSON values that Python stuffs into a
`TelemetryData` without a type check. -/
structure TelemetryOperationResult where
  success : Bool
  message : String
  old_data : Option (JVal × JVal) := none
  new_data : Option TelemetryData := none
  backup_path : Option String := none
  error : Option String := none

/-- Method `TelemetryModel.load_current_data`: read the two identifier
fields, defaulting to `""`; return them only when both are truthy.  Any
read/parse exception yields `None`. -/
def load_current_data (env : TelEnv) (s : TelState) : Option (JVal × JVal) :=
  match s.storageFile with
  | none => none
  | some content =>
    if env.readFail then none
    else
      let machineVal := (docLookup content "telemetry.machineId").getD (JVal.str "")
      let deviceVal := (docLookup content "telemetry.devDeviceId").getD (JVal.str "")
      if jvalTruthy machineVal && jvalTruthy deviceVal then some (machineVal, deviceVal)
      else none

/-- Method `TelemetryModel.update_telemetry_ids`.  `newDataOpt` is the
optional caller-supplied pair; `gen` stands for the value
`generate_new_telemetry_data` would return (its randomness made
explicit).  The write serializes the fully prepared in-memory object;
claims never depend on the file content after a failed write, which is
modelled as leaving the previous content. -/
def update_telemetry_ids (env : TelEnv) (newDataOpt : Option TelemetryData)
    (gen : TelemetryData) (path : String) (s : TelState) :
    TelemetryOperationResult × TelState :=
  let oldData := load_current_data env s
  let nd := newDataOpt.getD gen
  match s.storageFile with
  | none =>
    ({ success := false, message := "Failed to create backup of storage.json",
       error := some "Backup creation failed" }, s)
  | some content =>
    if env.copyFail then
      ({ success := false, message := "Failed to create backup of storage.json",
         error := some "Backup creation failed" }, s)
    else
      let s1 : TelState := { s with backupFile := some content }
      let backupPath := path ++ ".backup"
      if env.readFail then
        ({ success := false, message := "Failed to read storage.json",
           error := some "json parse error" }, s1)
      else
        let content2 := updateTelemetryFields content nd
        if env.writeFail then
          ({ success := false, message := "Failed to write updated storage.json",
             error := some "write error" }, s1)
        else
          ({ success := true, message := "Successfully updated telemetry IDs",
             old_data := oldData, new_data := some nd,
             backup_path := some backupPath },
           { s1 with storageFile := some content2 })

/-! ### The service layer (`VSCodeService`, vscode_service.py) -/

/-- Method `VSCodeService.clean_database`: availability and existence
checks in front of `remove_augment_entries`.  `dbAvail` models
`self.database_model is not None` (paths resolved). -/
def clean_database (env : DbEnv) (dbAvail : Bool) (dbPath : String) (s : DbState) :
    DatabaseOperationResult × DbState :=
  if !dbAvail then
    ({ success := false, message := "Database not available",
       error := some "Database model not initialized" }, s)
  else
    match s.dbFile with
    | none =>
      ({ success := false, message := "Database file not found",
         error := some "VS Code database file does not exist" }, s)
    | some _ => remove_augment_entries env dbPath s

/-- Method `VSCodeService.modify_telemetry_ids`: checks, then
`update_telemetry_ids()` with no caller-supplied data. -/
def modify_telemetry_ids (env : TelEnv) (telAvail : Bool) (gen : TelemetryData)
    (path : String) (s : TelState) : TelemetryOperationResult × TelState :=
  if !telAvail then
    ({ success := false, message := "Telemetry service not available",
       error := some "Telemetry model not initialized" }, s)
  else
    match s.storageFile with
    | none =>
      ({ success := false, message := "Storage.json file not found",
         error := some "VS Code storage.json file does not exist" }, s)
    | some _ => update_telemetry_ids env none gen path s

/-- The aggregated result dict of `run_all_operations`. -/
structure RunAllResult where
  database_result : Option DatabaseOperationResult
  telemetry_result : Option TelemetryOperationResult
  overall_success : Bool

/-- Method `VSCodeService.run_all_operations`: run each sub-operation
only when its model is available and its target file exists; a skipped
sub-operation leaves `None` in the results, which counts as success in
the aggregation (`is None or .success`). -/
def run_all_operations (denv : DbEnv) (tenv : TelEnv) (dbAvail telAvail : Bool)
    (gen : TelemetryData) (dbPath telPath : String)
    (dbs : DbState) (tels : TelState) :
    RunAllResult × DbState × TelState :=
  let dpair :=
    if dbAvail && dbs.dbFile.isSome then
      let p := clean_database denv dbAvail dbPath dbs
      (some p.1, p.2)
    else (none, dbs)
  let tpair :=
    if telAvail && tels.storageFile.isSome then
      let p := modify_telemetry_ids tenv telAvail gen telPath tels
      (some p.1, p.2)
    else (none, tels)
  let dbSuccess := match dpair.1 with | none => true | some r => r.success
  let telSuccess := match tpair.1 with | none => true | some r => r.success
  ({ database_result := dpair.1, telemetry_result := tpair.1,
     overall_success := dbSuccess && telSuccess }, dpair.2, tpair.2)

/-! ## Helper lemmas: hexadecimal encoding -/

lemma hexDigit_lowerHex {n : Nat} (h : n < 16) : isLowerHexDigit (hexDigit n) = true := by
  interval_cases n <;> decide

lemma hexChars_length (bs : List Nat) :
    (bs.foldr (fun b acc => byteToHex b ++ acc) []).length = 2 * bs.length := by
  induction bs with
  | nil => rfl
  | cons b bs ih =>
    simp [byteToHex] at ih ⊢
    omega

lemma hexChars_all_lowerHex (bs : List Nat) (h : ∀ b ∈ bs, b < 256) :
    (bs.foldr (fun b acc => byteToHex b ++ acc) []).all isLowerHexDigit = true := by
  induction bs with
  | nil => rfl
  | cons b bs ih =>
    simp only [List.foldr_cons, byteToHex, List.cons_append, List.nil_append, List.all_cons,
      Bool.and_eq_true]
    refine ⟨hexDigit_lowerHex ?_, hexDigit_lowerHex ?_, ih (fun x hx => h x (by simp [hx]))⟩
    · have := h b (by simp)
      omega
    · exact Nat.mod_lt _ (by omega)

lemma token_hex_length (bs : List Nat) : (token_hex bs).length = 2 * bs.length := by
  simpa [token_hex, String.length] using hexChars_length bs

lemma token_hex_all_lowerHex (bs : List Nat) (h : ∀ b ∈ bs, b < 256) :
    (token_hex bs).data.all isLowerHexDigit = true := by
  simpa [token_hex] using hexChars_all_lowerHex bs h

lemma exists_list16 {α : Type} (bs : List α) (h : bs.length = 16) :
    ∃ b0 b1 b2 b3 b4 b5 b6 b7 b8 b9 b10 b11 b12 b13 b14 b15,
      bs = [b0, b1, b2, b3, b4, b5, b6, b7, b8, b9, b10, b11, b12, b13, b14, b15] := by
  obtain ⟨b0, bs, rfl⟩ := bs.exists_of_length_succ h
  replace h : bs.length = 15 := by simpa using h
  obtain ⟨b1, bs, rfl⟩ := bs.exists_of_length_succ h
  replace h : bs.length = 14 := by simpa using h
  obtain ⟨b2, bs, rfl⟩ := bs.exists_of_length_succ h
  replace h : bs.length = 13 := by simpa using h
  obtain ⟨b3, bs, rfl⟩ := bs.exists_of_length_succ h
  replace h : bs.length = 12 := by simpa using h
  obtain ⟨b4, bs, rfl⟩ := bs.exists_of_length_succ h
  replace h : bs.length = 11 := by simpa using h
  obtain ⟨b5, bs, rfl⟩ := bs.exists_of_length_succ h
  replace h : bs.length = 10 := by simpa using h
  obtain ⟨b6, bs, rfl⟩ := bs.exists_of_length_succ h
  replace h : bs.length = 9 := by simpa using h
  obtain ⟨b7, bs, rfl⟩ := bs.exists_of_length_succ h
  replace h : bs.length = 8 := by simpa using h
  obtain ⟨b8, bs, rfl⟩ := bs.exists_of_length_succ h
  replace h : bs.length = 7 := by simpa using h
  obtain ⟨b9, bs, rfl⟩ := bs.exists_of_length_succ h
  replace h : bs.length = 6 := by simpa using h
  obtain ⟨b10, bs, rfl⟩ := bs.exists_of_length_succ h
  replace h : bs.length = 5 := by simpa using h
  obtain ⟨b11, bs, rfl⟩ := bs.exists_of_length_succ h
  replace h : bs.length = 4 := by simpa using h
  obtain ⟨b12, bs, rfl⟩ := bs.exists_of_length_succ h
  replace h : bs.length = 3 := by simpa using h
  obtain ⟨b13, bs, rfl⟩ := bs.exists_of_length_succ h
  replace h : bs.length = 2 := by simpa using h
  obtain ⟨b14, bs, rfl⟩ := bs.exists_of_length_succ h
  replace h : bs.length = 1 := by simpa using h
  obtain ⟨b15, bs, rfl⟩ := bs.exists_of_length_succ h
  replace h : bs.length = 0 := by simpa using h
  have hnil : bs = [] := List.length_eq_zero.mp h
  subst hnil
  exact ⟨b0, b1, b2, b3, b4, b5, b6, b7, b8, b9, b10, b11, b12, b13, b14, b15, rfl⟩

lemma uuid4_of_bytes_wellformed (bs : List Nat) (h : bs.length = 16)
    (hb : ∀ b ∈ bs, b < 256) : isUuid4String (uuid4_of_bytes bs) = true := by
  obtain ⟨b0, b1, b2, b3, b4, b5, b6, b7, b8, b9, b10, b11, b12, b13, b14, b15, rfl⟩ :=
    exists_list16 bs h
  have h0 : b0 < 256 := hb b0 (by simp)
  have h1 : b1 < 256 := hb b1 (by simp)
  have h2 : b2 < 256 := hb b2 (by simp)
  have h3 : b3 < 256 := hb b3 (by simp)
  have h4 : b4 < 256 := hb b4 (by simp)
  have h5 : b5 < 256 := hb b5 (by simp)
  have h7 : b7 < 256 := hb b7 (by simp)
  have h9 : b9 < 256 := hb b9 (by simp)
  have h10 : b10 < 256 := hb b10 (by simp)
  have h11 : b11 < 256 := hb b11 (by simp)
  have h12 : b12 < 256 := hb b12 (by simp)
  have h13 : b13 < 256 := hb b13 (by simp)
  have h14 : b14 < 256 := hb b14 (by simp)
  have h15 : b15 < 256 := hb b15 (by simp)
  simp only [uuid4_of_bytes, setUuid4Bits, byteToHex, List.foldr_cons, List.foldr_nil,
    List.cons_append, List.nil_append, insertDashes, isUuid4String, isUuid4Chars,
    List.all_cons, List.all_nil, Bool.and_eq_true, Bool.or_eq_true, beq_iff_eq]
  refine ⟨⟨?_, ?_⟩, ?_⟩
  · repeat' apply And.intro
    all_goals first
      | exact hexDigit_lowerHex (by omega)
      | trivial
  · rw [show (b6 % 16 + 64) / 16 = 4 from by omega]
    decide
  · rw [show (b8 % 64 + 128) / 16 = 8 + b8 % 64 / 16 from by omega]
    have hk4 : b8 % 64 / 16 < 4 := by omega
    set k := b8 % 64 / 16 with hkdef
    interval_cases k <;> decide

/-! ## Helper lemmas: Python `int` and `uuid.UUID` parsing -/

lemma lowerHex_isHexDigitChar {c : Char} (h : isLowerHexDigit c = true) :
    isHexDigitChar c = true := by
  simp only [isLowerHexDigit, Bool.or_eq_true, Bool.and_eq_true, decide_eq_true_eq] at h
  simp only [isHexDigitChar, Bool.or_eq_true, Bool.and_eq_true, decide_eq_true_eq]
  omega

lemma lowerHex_beq_false {c : Char} (h : isLowerHexDigit c = true) (d : Char)
    (hd : isLowerHexDigit d = false) : (c == d) = false := by
  cases hbe : c == d with
  | false => rfl
  | true =>
    exfalso
    have hcd : c = d := eq_of_beq hbe
    rw [← hcd, h] at hd
    simp at hd

lemma lowerHex_ne {c : Char} (h : isLowerHexDigit c = true) (d : Char)
    (hd : isLowerHexDigit d = false) : c ≠ d := by
  intro hcd
  rw [← hcd, h] at hd
  simp at hd

lemma lowerHex_not_ws {c : Char} (h : isLowerHexDigit c = true) :
    isPyWhitespace c = false := by
  simp only [isPyWhitespace, lowerHex_beq_false h ' ' (by decide),
    lowerHex_beq_false h '\t' (by decide), lowerHex_beq_false h '\n' (by decide),
    lowerHex_beq_false h '\r' (by decide), lowerHex_beq_false h '\x0b' (by decide),
    lowerHex_beq_false h '\x0c' (by decide), Bool.or_self]

lemma dropWhile_eq_self_of_all {α : Type} (p : α → Bool) (l : List α)
    (h : ∀ c ∈ l, p c = false) : l.dropWhile p = l := by
  cases l with
  | nil => rfl
  | cons c cs => simp [List.dropWhile_cons, h c (by simp)]

lemma stripPyWhitespace_eq_self (cs : List Char) (h : ∀ c ∈ cs, isPyWhitespace c = false) :
    stripPyWhitespace cs = cs := by
  unfold stripPyWhitespace
  rw [dropWhile_eq_self_of_all _ _ h,
    dropWhile_eq_self_of_all _ _ (fun c hc => h c (by simpa using hc)),
    List.reverse_reverse]

lemma dropSign_eq_self_of_lowerHex (c : Char) (rest : List Char)
    (h : isLowerHexDigit c = true) : dropSign (c :: rest) = c :: rest := by
  rw [dropSign.eq_def]
  split
  · next heq => exact absurd (List.cons.injEq .. ▸ congrArg id heq) (by simp [lowerHex_ne h '+' (by decide)])
  · next heq => exact absurd (List.cons.injEq .. ▸ congrArg id heq) (by simp [lowerHex_ne h '-' (by decide)])
  · rfl

lemma dropHexPrefix_eq_self_of_lowerHex (cs : List Char)
    (h : ∀ c ∈ cs, isLowerHexDigit c = true) : dropHexPrefix cs = cs := by
  rw [dropHexPrefix.eq_def]
  split
  · exact absurd (h 'x' (by simp)) (by decide)
  · exact absurd (h 'x' (by simp)) (by decide)
  · exact absurd (h 'X' (by simp)) (by decide)
  · exact absurd (h 'X' (by simp)) (by decide)
  · rfl

lemma pyHexTail_of_lowerHex : ∀ (cs : List Char),
    (∀ c ∈ cs, isLowerHexDigit c = true) → pyHexTail cs = true
  | [], _ => rfl
  | [c], h => by
    simp only [pyHexTail]
    exact lowerHex_isHexDigitChar (h c (by simp))
  | c :: d :: rest, h => by
    have hc := h c (by simp)
    simp only [pyHexTail]
    rw [if_neg (lowerHex_ne hc '_' (by decide))]
    simp only [lowerHex_isHexDigitChar hc, Bool.true_and]
    exact pyHexTail_of_lowerHex (d :: rest) (fun x hx => h x (List.mem_cons_of_mem c hx))

lemma pyHexBody_of_lowerHex (cs : List Char) (hne : cs ≠ [])
    (h : ∀ c ∈ cs, isLowerHexDigit c = true) : pyHexBody cs = true := by
  cases cs with
  | nil => exact absurd rfl hne
  | cons c rest =>
    simp only [pyHexBody.eq_def]
    simp only [lowerHex_isHexDigitChar (h c (by simp)), Bool.true_and]
    exact pyHexTail_of_lowerHex rest (fun x hx => h x (List.mem_cons_of_mem c hx))

lemma pyIntOk_of_lowerHex (cs : List Char) (hne : cs ≠ [])
    (h : ∀ c ∈ cs, isLowerHexDigit c = true) : pyIntOk cs = true := by
  unfold pyIntOk
  rw [stripPyWhitespace_eq_self cs (fun c hc => lowerHex_not_ws (h c hc))]
  cases cs with
  | nil => exact absurd rfl hne
  | cons c rest =>
    rw [dropSign_eq_self_of_lowerHex c rest (h c (by simp)),
      dropHexPrefix_eq_self_of_lowerHex _ h]
    exact pyHexBody_of_lowerHex _ (by simp) h

lemma pyIntParses_of_lowerHex (s : String) (hne : s.data ≠ [])
    (h : s.data.all isLowerHexDigit = true) : pyIntParses s = true := by
  unfold pyIntParses
  exact pyIntOk_of_lowerHex s.data hne (by simpa [List.all_eq_true] using h)

lemma dropUrn_eq_self : ∀ (cs : List Char), (∀ c ∈ cs, c ≠ ':') → dropUrn cs = cs
  | [], _ => rfl
  | c :: rest, h => by
    rw [dropUrn.eq_def]
    split
    · next heq => exact absurd (h ':' (by rw [heq]; simp)) (by simp)
    · next heq =>
      injection heq with h1 h2
      subst h1
      subst h2
      rw [dropUrn_eq_self rest (fun x hx => h x (List.mem_cons_of_mem c hx))]
    · next heq => exact absurd heq (by simp)

lemma dropUuidColon_eq_self : ∀ (cs : List Char), (∀ c ∈ cs, c ≠ ':') → dropUuidColon cs = cs
  | [], _ => rfl
  | c :: rest, h => by
    rw [dropUuidColon.eq_def]
    split
    · next heq => exact absurd (h ':' (by rw [heq]; simp)) (by simp)
    · next heq =>
      injection heq with h1 h2
      subst h1
      subst h2
      rw [dropUuidColon_eq_self rest (fun x hx => h x (List.mem_cons_of_mem c hx))]
    · next heq => exact absurd heq (by simp)

lemma stripBraces_eq_self (cs : List Char) (h : ∀ c ∈ cs, isBrace c = false) :
    stripBraces cs = cs := by
  unfold stripBraces
  rw [dropWhile_eq_self_of_all _ _ h,
    dropWhile_eq_self_of_all _ _ (fun c hc => h c (by simpa using hc)),
    List.reverse_reverse]

lemma lowerHex_not_brace {c : Char} (h : isLowerHexDigit c = true) : isBrace c = false := by
  simp only [isBrace, lowerHex_beq_false h '\x7b' (by decide),
    lowerHex_beq_false h '\x7d' (by decide), Bool.or_self]

lemma pyUuidParses_of_isUuid4String (s : String) (h : isUuid4String s = true) :
    pyUuidParses s = true := by
  unfold isUuid4String at h
  rw [isUuid4Chars.eq_def] at h
  split at h
  · next a0 a1 a2 a3 a4 a5 a6 a7 b0 b1 b2 b3 v c1 c2 c3 r d1 d2 d3 e0 e1 e2 e3 e4 e5 e6 e7 e8 e9 e10 e11 heq =>
    simp only [List.all_cons, List.all_nil, Bool.and_eq_true, Bool.or_eq_true,
      beq_iff_eq] at h
    obtain ⟨⟨⟨ha0, ha1, ha2, ha3, ha4, ha5, ha6, ha7, hb0, hb1, hb2, hb3, hc1, hc2, hc3, hd1, hd2, hd3, he0, he1, he2, he3, he4, he5, he6, he7, he8, he9, he10, he11, -⟩, hv⟩, hr⟩ := h
    have hv2 : isLowerHexDigit v = true := by rw [hv]; decide
    have hr2 : isLowerHexDigit r = true := by
      rcases hr with ⟨⟨rfl | rfl⟩ | rfl⟩ | rfl <;> decide
    have hclean : ∀ c ∈ s.data, isLowerHexDigit c = true ∨ c = '-' := by
      rw [heq]
      intro c hc
      simp only [List.mem_cons, List.not_mem_nil, or_false] at hc
      rcases hc with rfl | rfl | rfl | rfl | rfl | rfl | rfl | rfl | rfl | rfl | rfl | rfl | rfl | rfl | rfl | rfl | rfl | rfl | rfl | rfl | rfl | rfl | rfl | rfl | rfl | rfl | rfl | rfl | rfl | rfl | rfl | rfl | rfl | rfl | rfl | rfl
      all_goals first
        | exact Or.inr rfl
        | exact Or.inl hv2
        | exact Or.inl hr2
        | exact Or.inl (by assumption)
    have hcolon : ∀ c ∈ s.data, c ≠ ':' := by
      intro c hc
      rcases hclean c hc with hx | rfl
      · exact lowerHex_ne hx ':' (by decide)
      · decide
    have hbrace : ∀ c ∈ s.data, isBrace c = false := by
      intro c hc
      rcases hclean c hc with hx | rfl
      · exact lowerHex_not_brace hx
      · decide
    unfold pyUuidParses uuidNormalize
    rw [dropUrn_eq_self _ hcolon, dropUuidColon_eq_self _ hcolon,
      stripBraces_eq_self _ hbrace, heq]
    simp only [removeDashes, List.filter_cons, List.filter_nil,
      lowerHex_beq_false ha0 '-' (by decide),
      lowerHex_beq_false ha1 '-' (by decide),
      lowerHex_beq_false ha2 '-' (by decide),
      lowerHex_beq_false ha3 '-' (by decide),
      lowerHex_beq_false ha4 '-' (by decide),
      lowerHex_beq_false ha5 '-' (by decide),
      lowerHex_beq_false ha6 '-' (by decide),
      lowerHex_beq_false ha7 '-' (by decide),
      lowerHex_beq_false hb0 '-' (by decide),
      lowerHex_beq_false hb1 '-' (by decide),
      lowerHex_beq_false hb2 '-' (by decide),
      lowerHex_beq_false hb3 '-' (by decide),
      lowerHex_beq_false hv2 '-' (by decide),
      lowerHex_beq_false hc1 '-' (by decide),
      lowerHex_beq_false hc2 '-' (by decide),
      lowerHex_beq_false hc3 '-' (by decide),
      lowerHex_beq_false hr2 '-' (by decide),
      lowerHex_beq_false hd1 '-' (by decide),
      lowerHex_beq_false hd2 '-' (by decide),
      lowerHex_beq_false hd3 '-' (by decide),
      lowerHex_beq_false he0 '-' (by decide),
      lowerHex_beq_false he1 '-' (by decide),
      lowerHex_beq_false he2 '-' (by decide),
      lowerHex_beq_false he3 '-' (by decide),
      lowerHex_beq_false he4 '-' (by decide),
      lowerHex_beq_false he5 '-' (by decide),
      lowerHex_beq_false he6 '-' (by decide),
      lowerHex_beq_false he7 '-' (by decide),
      lowerHex_beq_false he8 '-' (by decide),
      lowerHex_beq_false he9 '-' (by decide),
      lowerHex_beq_false he10 '-' (by decide),
      lowerHex_beq_false he11 '-' (by decide),
      beq_self_eq_true, Bool.not_true, Bool.not_false]
    simp only [Bool.false_eq_true, Bool.true_eq_false, reduceIte]
    simp only [Bool.and_eq_true, beq_iff_eq]
    constructor
    · rfl
    · apply pyIntOk_of_lowerHex _ (by simp)
      intro c hc
      simp only [List.mem_cons, List.not_mem_nil, or_false] at hc
      rcases hc with rfl | rfl | rfl | rfl | rfl | rfl | rfl | rfl | rfl | rfl | rfl | rfl | rfl | rfl | rfl | rfl | rfl | rfl | rfl | rfl | rfl | rfl | rfl | rfl | rfl | rfl | rfl | rfl | rfl | rfl | rfl | rfl
      all_goals first
        | exact hv2
        | exact hr2
        | assumption
  · simp at h

/-! ## Claim theorems: identifier generation and validation -/

/-- C4: every Identifier Pair produced by
`generate_new_telemetry_data` (with 32 machine-id bytes and 16 UUID
bytes, each a byte value) has a machine_id of 64 lowercase hexadecimal
characters and a device_id in canonical RFC-4122 version-4 form
(8-4-4-4-12 lowercase hex groups, version nibble `4`, variant nibble in
`8`/`9`/`a`/`b`). -/
theorem C4_generated_pair_format (mBytes uBytes : List Nat)
    (hmLen : mBytes.length = 32) (hmB : ∀ b ∈ mBytes, b < 256)
    (huLen : uBytes.length = 16) (huB : ∀ b ∈ uBytes, b < 256) :
    (generate_new_telemetry_data mBytes uBytes).machine_id.length = 64
    ∧ (generate_new_telemetry_data mBytes uBytes).machine_id.data.all isLowerHexDigit = true
    ∧ isUuid4String (generate_new_telemetry_data mBytes uBytes).device_id = true := by
  refine ⟨?_, ?_, ?_⟩
  · show (token_hex mBytes).length = 64
    rw [token_hex_length, hmLen]
  · exact token_hex_all_lowerHex mBytes hmB
  · exact uuid4_of_bytes_wellformed uBytes huLen huB

/-- Witness for C4 at a concrete byte vector. -/
theorem C4_generated_pair_format_witness :
    (generate_new_telemetry_data (List.replicate 32 0) (List.replicate 16 0)).machine_id.length
      = 64
    ∧ (generate_new_telemetry_data (List.replicate 32 0)
        (List.replicate 16 0)).machine_id.data.all isLowerHexDigit = true
    ∧ isUuid4String
        (generate_new_telemetry_data (List.replicate 32 0) (List.replicate 16 0)).device_id
      = true :=
  C4_generated_pair_format (List.replicate 32 0) (List.replicate 16 0)
    (by decide) (by decide) (by decide) (by decide)

/-- C9 (implicit): every pair produced by `generate_new_telemetry_data`
passes `validate_telemetry_data`. -/
theorem C9_generated_pair_validates (mBytes uBytes : List Nat)
    (hmLen : mBytes.length = 32) (hmB : ∀ b ∈ mBytes, b < 256)
    (huLen : uBytes.length = 16) (huB : ∀ b ∈ uBytes, b < 256) :
    validate_telemetry_data (generate_new_telemetry_data mBytes uBytes) = true := by
  unfold validate_telemetry_data generate_new_telemetry_data
  simp only [Bool.and_eq_true, beq_iff_eq]
  refine ⟨⟨?_, ?_⟩, ?_⟩
  · rw [token_hex_length, hmLen]
  · apply pyIntParses_of_lowerHex
    · have := token_hex_length mBytes
      intro hnil
      rw [show (token_hex mBytes).length = 0 from by simp [String.length, hnil]] at this
      omega
    · exact token_hex_all_lowerHex mBytes hmB
  · exact pyUuidParses_of_isUuid4String _ (uuid4_of_bytes_wellformed uBytes huLen huB)

/-- Witness for C9 at a concrete byte vector. -/
theorem C9_generated_pair_validates_witness :
    validate_telemetry_data
      (generate_new_telemetry_data (List.replicate 32 255) (List.replicate 16 255)) = true :=
  C9_generated_pair_validates (List.replicate 32 255) (List.replicate 16 255)
    (by decide) (by decide) (by decide) (by decide)

/-- C5 (code bug): `validate_telemetry_data` accepts a pair whose
device_id is a syntactically valid *version-1* UUID, because CPython's
`uuid.UUID(s, version=4)` sets the version bits instead of checking
them; the function's own comment says the device id "should be valid
UUID4".  The claim's left-to-right direction fails on this input. -/
theorem C5_validate_accepts_non_v4_uuid :
    validate_telemetry_data
      { machine_id := String.mk (List.replicate 64 '1'),
        device_id := "11111111-1111-1111-8111-111111111111" } = true
    ∧ isUuid4String "11111111-1111-1111-8111-111111111111" = false
    ∧ pyUuidParses "11111111-1111-1111-8111-111111111111" = true := by
  refine ⟨?_, ?_, ?_⟩ <;> decide

/-! ## Helper lemmas: the row store -/

lemma countAugment_deleteAugment (rows : List DatabaseEntry) :
    countAugmentRows (deleteAugmentRows rows) = 0 := by
  simp only [countAugmentRows, deleteAugmentRows, List.filter_filter]
  simp

/-! ## Claim theorems: the row store -/

/-- C1 counterexample: with no failure injected, the store holding the
single row `("AUGMENT", "x")` contains zero rows whose key contains the
case-sensitive substring `augment`, yet `remove_augment_entries`
reports one affected row — SQLite's `LIKE` matches ASCII
case-insensitively. -/
theorem C1_counterexample :
    (∀ r ∈ [DatabaseEntry.mk "AUGMENT" "x"], isInfixOfCS "augment".data r.key.data = false)
    ∧ (remove_augment_entries ⟨false, false, false, false, false⟩ "state.vscdb"
        ⟨some [DatabaseEntry.mk "AUGMENT" "x"], none⟩).1.success = true
    ∧ (remove_augment_entries ⟨false, false, false, false, false⟩ "state.vscdb"
        ⟨some [DatabaseEntry.mk "AUGMENT" "x"], none⟩).1.entries_affected = 1 := by
  refine ⟨?_, ?_, ?_⟩ <;> decide

/-- C1 (amended: zero rows matching `augment` under SQLite's ASCII
case-insensitive `LIKE`): when the store file exists, no failure is
injected, and no row matches `LIKE '%augment%'`, the mutation returns
success, zero affected rows, the backup path, and has written the
backup file before the count was checked. -/
theorem C1_no_match_is_successful_noop (env : DbEnv) (path : String) (s : DbState)
    (rows : List DatabaseEntry) (hfile : s.dbFile = some rows)
    (hcopy : env.copyFail = false) (hconn : env.connectFail = false)
    (hcount : env.countFail = false) (hnone : countAugmentRows rows = 0) :
    (remove_augment_entries env path s).1.success = true
    ∧ (remove_augment_entries env path s).1.entries_affected = 0
    ∧ (remove_augment_entries env path s).1.backup_path = some (path ++ ".backup")
    ∧ (remove_augment_entries env path s).2.backupFile = some rows
    ∧ (remove_augment_entries env path s).2.dbFile = some rows := by
  simp [remove_augment_entries, create_backup, hfile, hcopy, hconn, hcount, hnone]

/-- Witness for the amended C1 on a one-row store with no matching row. -/
theorem C1_no_match_is_successful_noop_witness :
    (remove_augment_entries ⟨false, false, false, false, false⟩ "state.vscdb"
      ⟨some [DatabaseEntry.mk "editor.fontSize" "14"], none⟩).1.success = true
    ∧ (remove_augment_entries ⟨false, false, false, false, false⟩ "state.vscdb"
        ⟨some [DatabaseEntry.mk "editor.fontSize" "14"], none⟩).1.entries_affected = 0
    ∧ (remove_augment_entries ⟨false, false, false, false, false⟩ "state.vscdb"
        ⟨some [DatabaseEntry.mk "editor.fontSize" "14"], none⟩).1.backup_path
      = some ("state.vscdb" ++ ".backup")
    ∧ (remove_augment_entries ⟨false, false, false, false, false⟩ "state.vscdb"
        ⟨some [DatabaseEntry.mk "editor.fontSize" "14"], none⟩).2.backupFile
      = some [DatabaseEntry.mk "editor.fontSize" "14"]
    ∧ (remove_augment_entries ⟨false, false, false, false, false⟩ "state.vscdb"
        ⟨some [DatabaseEntry.mk "editor.fontSize" "14"], none⟩).2.dbFile
      = some [DatabaseEntry.mk "editor.fontSize" "14"] :=
  C1_no_match_is_successful_noop _ _ _ [DatabaseEntry.mk "editor.fontSize" "14"]
    rfl rfl rfl rfl (by decide)

/-- C2: cleaning a store whose file does not exist (with the model
available) fails with a message mentioning "not found", a non-success
result, no backup path, an error string, and an unchanged state. -/
theorem C2_missing_store_fails (env : DbEnv) (path : String) (s : DbState)
    (hfile : s.dbFile = none) :
    (clean_database env true path s).1.success = false
    ∧ isInfixOfCS "not found".data (clean_database env true path s).1.message.data = true
    ∧ (clean_database env true path s).1.backup_path = none
    ∧ (clean_database env true path s).1.error = some "VS Code database file does not exist"
    ∧ (clean_database env true path s).2 = s := by
  refine ⟨?_, ?_, ?_, ?_, ?_⟩ <;> simp [clean_database, hfile]
  decide

/-- Witness for C2 on an absent store file. -/
theorem C2_missing_store_fails_witness :
    (clean_database ⟨false, false, false, false, false⟩ true "state.vscdb" ⟨none, none⟩).1.success
      = false
    ∧ isInfixOfCS "not found".data
        (clean_database ⟨false, false, false, false, false⟩ true "state.vscdb"
          ⟨none, none⟩).1.message.data = true
    ∧ (clean_database ⟨false, false, false, false, false⟩ true "state.vscdb"
        ⟨none, none⟩).1.backup_path = none
    ∧ (clean_database ⟨false, false, false, false, false⟩ true "state.vscdb"
        ⟨none, none⟩).1.error = some "VS Code database file does not exist"
    ∧ (clean_database ⟨false, false, false, false, false⟩ true "state.vscdb" ⟨none, none⟩).2
      = ⟨none, none⟩ :=
  C2_missing_store_fails ⟨false, false, false, false, false⟩ "state.vscdb" ⟨none, none⟩ rfl

/-- C3: for both mutators, a failing pre-mutation backup copy makes the
operation return failure immediately with the file-system state — in
particular the target file — unchanged. -/
theorem C3_copy_fail_aborts :
    (∀ (env : DbEnv) (path : String) (s : DbState) (rows : List DatabaseEntry),
      s.dbFile = some rows → env.copyFail = true →
      (remove_augment_entries env path s).1.success = false
      ∧ (remove_augment_entries env path s).2 = s)
    ∧ (∀ (env : TelEnv) (ndOpt : Option TelemetryData) (gen : TelemetryData)
        (path : String) (s : TelState) (content : JObj),
      s.storageFile = some content → env.copyFail = true →
      (update_telemetry_ids env ndOpt gen path s).1.success = false
      ∧ (update_telemetry_ids env ndOpt gen path s).2 = s) := by
  constructor
  · intro env path s rows hf hc
    constructor <;> simp [remove_augment_entries, create_backup, hf, hc]
  · intro env ndOpt gen path s content hf hc
    constructor <;> simp [update_telemetry_ids, hf, hc]

/-- Witness for C3 with the copy failing on concrete states. -/
theorem C3_copy_fail_aborts_witness :
    ((remove_augment_entries ⟨true, false, false, false, false⟩ "state.vscdb"
        ⟨some [], none⟩).1.success = false
      ∧ (remove_augment_entries ⟨true, false, false, false, false⟩ "state.vscdb"
          ⟨some [], none⟩).2 = ⟨some [], none⟩)
    ∧ ((update_telemetry_ids ⟨true, false, false⟩ none ⟨"m", "d"⟩ "storage.json"
        ⟨some [], none⟩).1.success = false
      ∧ (update_telemetry_ids ⟨true, false, false⟩ none ⟨"m", "d"⟩ "storage.json"
          ⟨some [], none⟩).2 = ⟨some [], none⟩) :=
  ⟨C3_copy_fail_aborts.1 ⟨true, false, false, false, false⟩ "state.vscdb" ⟨some [], none⟩ []
      rfl rfl,
    C3_copy_fail_aborts.2 ⟨true, false, false⟩ none ⟨"m", "d"⟩ "storage.json" ⟨some [], none⟩ []
      rfl rfl⟩

/-- C10 (implicit): if the backup step succeeded (file present, copy not
failing) but `remove_augment_entries` reports failure, the store file's
row contents are unchanged: deletions are committed only in the success
path, and every exception path closes the connection without
committing. -/
theorem C10_failure_preserves_store (env : DbEnv) (path : String) (s : DbState)
    (rows : List DatabaseEntry) (hfile : s.dbFile = some rows)
    (hcopy : env.copyFail = false)
    (hfail : (remove_augment_entries env path s).1.success = false) :
    (remove_augment_entries env path s).2.dbFile = s.dbFile := by
  by_cases hconn : env.connectFail
  · simp [remove_augment_entries, create_backup, hfile, hcopy, hconn]
  · by_cases hcount : env.countFail
    · simp [remove_augment_entries, create_backup, hfile, hcopy, hconn, hcount]
    · by_cases hzero : countAugmentRows rows = 0
      · simp [remove_augment_entries, create_backup, hfile, hcopy, hconn, hcount,
          hzero] at hfail
      · by_cases hdel : env.deleteFail
        · simp [remove_augment_entries, create_backup, hfile, hcopy, hconn, hcount, hzero,
            hdel]
        · by_cases hcommit : env.commitFail
          · simp [remove_augment_entries, create_backup, hfile, hcopy, hconn, hcount, hzero,
              hdel, hcommit]
          · simp [remove_augment_entries, create_backup, hfile, hcopy, hconn, hcount, hzero,
              hdel, hcommit] at hfail

/-- Witness for C10 with a failing connect on a concrete store. -/
theorem C10_failure_preserves_store_witness :
    (remove_augment_entries ⟨false, true, false, false, false⟩ "state.vscdb"
      ⟨some [DatabaseEntry.mk "augment.a" "x"], none⟩).2.dbFile
      = (DbState.mk (some [DatabaseEntry.mk "augment.a" "x"]) none).dbFile :=
  C10_failure_preserves_store ⟨false, true, false, false, false⟩ "state.vscdb"
    ⟨some [DatabaseEntry.mk "augment.a" "x"], none⟩ [DatabaseEntry.mk "augment.a" "x"]
    rfl rfl (by decide)

/-- C7: if a first run of `remove_augment_entries` succeeds, a second
run on the resulting state (same environment) succeeds with zero
affected rows: the first run removed every matching row. -/
theorem C7_second_run_is_noop (env : DbEnv) (path : String) (s : DbState)
    (h : (remove_augment_entries env path s).1.success = true) :
    (remove_augment_entries env path (remove_augment_entries env path s).2).1.success = true
    ∧ (remove_augment_entries env path
        (remove_augment_entries env path s).2).1.entries_affected = 0 := by
  rcases s with ⟨db, bk⟩
  cases db with
  | none => simp [remove_augment_entries, create_backup] at h
  | some rows =>
    by_cases hcopy : env.copyFail
    · simp [remove_augment_entries, create_backup, hcopy] at h
    · by_cases hconn : env.connectFail
      · simp [remove_augment_entries, create_backup, hcopy, hconn] at h
      · by_cases hcount : env.countFail
        · simp [remove_augment_entries, create_backup, hcopy, hconn, hcount] at h
        · by_cases hzero : countAugmentRows rows = 0
          · constructor <;>
              simp [remove_augment_entries, create_backup, hcopy, hconn, hcount, hzero]
          · by_cases hdel : env.deleteFail
            · simp [remove_augment_entries, create_backup, hcopy, hconn, hcount, hzero,
                hdel] at h
            · by_cases hcommit : env.commitFail
              · simp [remove_augment_entries, create_backup, hcopy, hconn, hcount, hzero,
                  hdel, hcommit] at h
              · constructor <;>
                  simp [remove_augment_entries, create_backup, hcopy, hconn, hcount, hzero,
                    hdel, hcommit, countAugment_deleteAugment]

/-- Witness for C7 on a store with one matching row. -/
theorem C7_second_run_is_noop_witness :
    (remove_augment_entries ⟨false, false, false, false, false⟩ "state.vscdb"
      (remove_augment_entries ⟨false, false, false, false, false⟩ "state.vscdb"
        ⟨some [DatabaseEntry.mk "augment.a" "x"], none⟩).2).1.success = true
    ∧ (remove_augment_entries ⟨false, false, false, false, false⟩ "state.vscdb"
        (remove_augment_entries ⟨false, false, false, false, false⟩ "state.vscdb"
          ⟨some [DatabaseEntry.mk "augment.a" "x"], none⟩).2).1.entries_affected = 0 :=
  C7_second_run_is_noop ⟨false, false, false, false, false⟩ "state.vscdb"
    ⟨some [DatabaseEntry.mk "augment.a" "x"], none⟩ (by decide)

/-! ## Helper lemmas: the preference document -/

lemma find?_mapSet (m : JObj) (k k' : String) (v : JVal) (h : k' ≠ k) :
    (m.map (fun p => if p.1 == k then (k, v) else p)).find? (fun p => p.1 == k')
      = m.find? (fun p => p.1 == k') := by
  induction m with
  | nil => rfl
  | cons p m ih =>
    have hkk : (k == k') = false := by
      cases hb : k == k' with
      | false => rfl
      | true => exact absurd (eq_of_beq hb).symm h
    rw [List.map_cons]
    by_cases hpk : (p.1 == k) = true
    · have hpk2 : p.1 = k := eq_of_beq hpk
      have hpk3 : (p.1 == k') = false := by rw [hpk2]; exact hkk
      rw [if_pos hpk, List.find?_cons_of_neg _ (by simp [hkk]),
        List.find?_cons_of_neg _ (by simp [hpk3]), ih]
    · rw [if_neg hpk]
      cases hp : (p.1 == k') with
      | true =>
        rw [List.find?_cons_of_pos _ (by simp [hp]), List.find?_cons_of_pos _ (by simp [hp])]
      | false =>
        rw [List.find?_cons_of_neg _ (by simp [hp]), List.find?_cons_of_neg _ (by simp [hp]),
          ih]

lemma find?_append_single (m : JObj) (k k' : String) (v : JVal) (h : k' ≠ k) :
    (m ++ [(k, v)]).find? (fun p => p.1 == k') = m.find? (fun p => p.1 == k') := by
  induction m with
  | nil =>
    have hkk : (k == k') = false := by
      cases hb : k == k' with
      | false => rfl
      | true => exact absurd (eq_of_beq hb).symm h
    simp only [List.nil_append]
    rw [List.find?_cons_of_neg _ (by simp [hkk])]
  | cons p m ih =>
    rw [List.cons_append]
    cases hp : (p.1 == k') with
    | true =>
      rw [List.find?_cons_of_pos _ (by simp [hp]), List.find?_cons_of_pos _ (by simp [hp])]
    | false =>
      rw [List.find?_cons_of_neg _ (by simp [hp]), List.find?_cons_of_neg _ (by simp [hp]),
        ih]

lemma docLookup_dictSet_ne (m : JObj) (k k' : String) (v : JVal) (h : k' ≠ k) :
    docLookup (dictSet m k v) k' = docLookup m k' := by
  unfold dictSet docLookup
  by_cases hany : (m.any (fun p => p.1 == k)) = true
  · rw [if_pos hany, find?_mapSet m k k' v h]
  · rw [if_neg hany, find?_append_single m k k' v h]

lemma docLookup_updateTelemetryFields_ne (m : JObj) (d : TelemetryData) (k : String)
    (h1 : k ≠ "telemetry.machineId") (h2 : k ≠ "telemetry.devDeviceId") :
    docLookup (updateTelemetryFields m d) k = docLookup m k := by
  unfold updateTelemetryFields
  rw [docLookup_dictSet_ne _ _ _ _ h2, docLookup_dictSet_ne _ _ _ _ h1]

/-- C6: a successful preference-document mutation changes at most the two
identifier fields: every other key of the parsed document reads back
unchanged. -/
theorem C6_update_preserves_other_fields (env : TelEnv) (ndOpt : Option TelemetryData)
    (gen : TelemetryData) (path : String) (s : TelState) (content : JObj) (k : String)
    (hfile : s.storageFile = some content)
    (hsucc : (update_telemetry_ids env ndOpt gen path s).1.success = true)
    (hk1 : k ≠ "telemetry.machineId") (hk2 : k ≠ "telemetry.devDeviceId") :
    docLookup ((update_telemetry_ids env ndOpt gen path s).2.storageFile.getD []) k
      = docLookup content k := by
  by_cases hcopy : env.copyFail
  · simp [update_telemetry_ids, hfile, hcopy] at hsucc
  · by_cases hread : env.readFail
    · simp [update_telemetry_ids, hfile, hcopy, hread] at hsucc
    · by_cases hwrite : env.writeFail
      · simp [update_telemetry_ids, hfile, hcopy, hread, hwrite] at hsucc
      · simp [update_telemetry_ids, hfile, hcopy, hread, hwrite]
        exact docLookup_updateTelemetryFields_ne content (ndOpt.getD gen) k hk1 hk2

/-- Witness for C6: a document with one unrelated field keeps it. -/
theorem C6_update_preserves_other_fields_witness :
    docLookup ((update_telemetry_ids ⟨false, false, false⟩ none ⟨"m", "d"⟩ "storage.json"
        ⟨some [("other.flag", JVal.bool true)], none⟩).2.storageFile.getD []) "other.flag"
      = docLookup [("other.flag", JVal.bool true)] "other.flag" :=
  C6_update_preserves_other_fields ⟨false, false, false⟩ none ⟨"m", "d"⟩ "storage.json"
    ⟨some [("other.flag", JVal.bool true)], none⟩ [("other.flag", JVal.bool true)] "other.flag"
    rfl rfl (by decide) (by decide)

/-- C8: `run_all_operations` skips a sub-operation whose target file is
absent (leaving its result slot empty), and its aggregated
overall_success is true iff every sub-operation that was invoked
returned success. -/
theorem C8_run_all_aggregation (denv : DbEnv) (tenv : TelEnv) (dbAvail telAvail : Bool)
    (gen : TelemetryData) (dbPath telPath : String) (dbs : DbState) (tels : TelState) :
    (dbs.dbFile = none →
      (run_all_operations denv tenv dbAvail telAvail gen dbPath telPath
        dbs tels).1.database_result = none)
    ∧ (tels.storageFile = none →
      (run_all_operations denv tenv dbAvail telAvail gen dbPath telPath
        dbs tels).1.telemetry_result = none)
    ∧ ((run_all_operations denv tenv dbAvail telAvail gen dbPath telPath
        dbs tels).1.overall_success = true ↔
      (∀ r, (run_all_operations denv tenv dbAvail telAvail gen dbPath telPath
          dbs tels).1.database_result = some r → r.success = true)
      ∧ (∀ r, (run_all_operations denv tenv dbAvail telAvail gen dbPath telPath
          dbs tels).1.telemetry_result = some r → r.success = true)) := by
  by_cases hd : (dbAvail && dbs.dbFile.isSome) = true
  · by_cases ht : (telAvail && tels.storageFile.isSome) = true
    · constructor
      · intro hnone
        rw [hnone] at hd
        simp at hd
      · constructor
        · intro hnone
          rw [hnone] at ht
          simp at ht
        · simp [run_all_operations, hd, ht]
    · constructor
      · intro hnone
        rw [hnone] at hd
        simp at hd
      · constructor
        · intro hnone
          simp [run_all_operations, hd, ht]
        · simp [run_all_operations, hd, ht]
  · by_cases ht : (telAvail && tels.storageFile.isSome) = true
    · refine ⟨fun hnone => by simp [run_all_operations, hd, ht], ?_, ?_⟩
      · intro hnone
        rw [hnone] at ht
        simp at ht
      · simp [run_all_operations, hd, ht]
    · refine ⟨fun hnone => by simp [run_all_operations, hd, ht],
        fun hnone => by simp [run_all_operations, hd, ht], ?_⟩
      simp [run_all_operations, hd, ht]

/-- Witness for C8: with both target files absent, both sub-operations
are skipped and the aggregate succeeds. -/
theorem C8_run_all_aggregation_witness :
    (run_all_operations ⟨false, false, false, false, false⟩ ⟨false, false, false⟩ true true
      ⟨"m", "d"⟩ "state.vscdb" "storage.json" ⟨none, none⟩
      ⟨none, none⟩).1.database_result = none
    ∧ (run_all_operations ⟨false, false, false, false, false⟩ ⟨false, false, false⟩ true true
        ⟨"m", "d"⟩ "state.vscdb" "storage.json" ⟨none, none⟩
        ⟨none, none⟩).1.telemetry_result = none
    ∧ (run_all_operations ⟨false, false, false, false, false⟩ ⟨false, false, false⟩ true true
        ⟨"m", "d"⟩ "state.vscdb" "storage.json" ⟨none, none⟩
        ⟨none, none⟩).1.overall_success = true :=
  And.intro
    ((C8_run_all_aggregation ⟨false, false, false, false, false⟩ ⟨false, false, false⟩ true true
      ⟨"m", "d"⟩ "state.vscdb" "storage.json" ⟨none, none⟩ ⟨none, none⟩).1 rfl)
    (And.intro
      ((C8_run_all_aggregation ⟨false, false, false, false, false⟩ ⟨false, false, false⟩ true
        true ⟨"m", "d"⟩ "state.vscdb" "storage.json" ⟨none, none⟩ ⟨none, none⟩).2.1 rfl)
      ((C8_run_all_aggregation ⟨false, false, false, false, false⟩ ⟨false, false, false⟩ true
        true ⟨"m", "d"⟩ "state.vscdb" "storage.json" ⟨none, none⟩ ⟨none, none⟩).2.2.mpr
        (And.intro (fun _ hr => nomatch hr) (fun _ hr => nomatch hr))))

end VipAugment
